import Mathlib

/-!
Shallow embedding of the hmq MQTT broker core (package `broker`):
the client session (`client.go`), the registry and handshake
(`config.go`), and the accept-loop backoff constants (`const` file).

Side effects are made explicit: a `World` records the registry
(`Broker.clients`), the packets written to connections (`wire`), the
`Send` invocations (`sendCalls`), connections closed, and log lines.
The packet codec (`github.com/eclipse/paho.mqtt.golang/packets`) is
external; packets are modelled structurally and CONNECT validation is a
parameter, since `connect.Validate()` lives in that library.
-/

namespace HMQ

/-- MQTT return code `packets.Accepted` (0x00). -/
def Accepted : Nat := 0

/-- MQTT return code `packets.ErrRefusedNotAuthorised` (0x05). -/
def ErrRefusedNotAuthorised : Nat := 5

/-- `packets.ConnectPacket`, the fields the broker core reads. -/
structure ConnectPacket where
  clientIdentifier : String
  cleanSession : Bool
  deriving DecidableEq, Repr

/-- `packets.ConnackPacket`, the fields the broker core writes. -/
structure ConnackPacket where
  sessionPresent : Bool
  returnCode : Nat
  deriving DecidableEq, Repr

/-- `packets.SubscribePacket`, the fields read by `ProcessSubscribe`. -/
structure SubscribePacket where
  topics : List String
  messageID : Nat
  deriving DecidableEq, Repr

/-- `packets.SubackPacket`, the fields written by `ProcessSubscribe`. -/
structure SubackPacket where
  messageID : Nat
  returnCodes : List Nat
  deriving DecidableEq, Repr

/-- `packets.PublishPacket` payload as far as the core looks at it. -/
structure PublishPacket where
  topicName : String
  payload : String
  deriving DecidableEq, Repr

/-- `packets.ControlPacket`: the packet types `ProcessMessage` switches on. -/
inductive ControlPacket where
  | connect (p : ConnectPacket)
  | connack (p : ConnackPacket)
  | publish (p : PublishPacket)
  | puback
  | pubrec
  | pubrel
  | pubcomp
  | subscribe (p : SubscribePacket)
  | suback (p : SubackPacket)
  | unsubscribe
  | unsuback
  | pingreq
  | pingresp
  | disconnect
  | unknown
  deriving DecidableEq, Repr

/-- The shared `PingrespPacket` value. -/
def PingrespPacket : ControlPacket := ControlPacket.pingresp

/-- A `net.Conn`: identified by a descriptor; `writeErr` is the (fixed)
result the codec's `Write` reports on this connection. -/
structure Conn where
  fd : Nat
  writeErr : Option String := none
  deriving DecidableEq, Repr

/-- Session status constants `Connected` / `Disconnected`. -/
inductive Status where
  | Connected
  | Disconnected
  deriving DecidableEq, Repr

/-- The `client` struct of `client.go`. `cancelled` records whether
`cancelFunc` has fired; `hasBroker` models whether the `broker`
back-pointer is non-nil. -/
structure client where
  id : String
  publishOnly : Bool
  conn : Option Conn
  status : Status
  cancelled : Bool
  hasBroker : Bool
  deriving DecidableEq, Repr

/-- `Broker.DeleteClient`: `b.clients.Delete(c.id)`. -/
def DeleteClient (reg : List client) (c : client) : List client :=
  reg.filter (fun x => x.id ≠ c.id)

/-- `Broker.LoadClient`: `b.clients.Load(id)`. -/
def LoadClient (reg : List client) (cid : String) : Option client :=
  reg.find? (fun x => x.id = cid)

/-- `Broker.AddClient`: `b.clients.Store(c.id, c)` — replaces any entry
under the same identifier, else inserts. -/
def AddClient (reg : List client) (c : client) : List client :=
  if reg.any (fun x => x.id = c.id) then
    reg.map (fun x => if x.id = c.id then c else x)
  else
    reg ++ [c]

/-- Explicit effect state: the broker registry plus the observable
traces of one execution. -/
structure World where
  clients : List client
  wire : List (Nat × ControlPacket)
  sendCalls : List String
  closedConns : List Nat
  logs : List String
  deriving DecidableEq, Repr

/-- `client.Close` (`client.go`): no-op when already Disconnected, else
fires the cancellation, flips status, closes and nils `conn`, and
removes the client from the registry. Returns the updated client and
world. -/
def close (c : client) (w : World) : client × World :=
  if c.status = Status.Disconnected then (c, w)
  else
    let c1 : client := { c with cancelled := true, status := Status.Disconnected }
    let step : client × World :=
      match c1.conn with
      | some cn =>
          ({ c1 with conn := none },
           { w with closedConns := w.closedConns ++ [cn.fd] })
      | none => (c1, w)
    let c2 := step.1
    let w2 := step.2
    if c2.hasBroker then
      (c2, { w2 with clients := DeleteClient w2.clients c2 })
    else
      (c2, w2)

/-- `client.Send` (`client.go`): records the invocation, then returns
nil when Disconnected or when the packet is nil; on a nil `conn` calls
`Close` and reports connection lost; otherwise writes the packet under
the send lock and returns the write's result. -/
def send (c : client) (packet : Option ControlPacket) (w : World) :
    client × World × Option String :=
  let w0 : World := { w with sendCalls := w.sendCalls ++ [c.id] }
  if c.status = Status.Disconnected then (c, w0, none)
  else
    match packet with
    | none => (c, w0, none)
    | some pkt =>
      match c.conn with
      | none =>
          let r := close c w0
          (r.1, r.2, some "connection lost")
      | some cn =>
          (c, { w0 with wire := w0.wire ++ [(cn.fd, pkt)] }, cn.writeErr)

/-- One iteration of `Broker.EachClient`'s `Range` body (`config.go`):
apply `fn` to the client; a non-nil error is logged and iteration
continues. -/
def eachClientApply (fn : client → World → World × Option String)
    (acc : World) (cl : client) : World :=
  let r := fn cl acc
  match r.2 with
  | some e => { r.1 with logs := r.1.logs ++ ["process " ++ e] }
  | none => r.1

/-- `Broker.EachClient` (`config.go`): ranges over the registry,
applying `fn` to each client; a non-nil error from `fn` is logged and
iteration continues. -/
def EachClient (w : World) (fn : client → World → World × Option String) : World :=
  w.clients.foldl (eachClientApply fn) w

/-- The closure `ProcessPublish` passes to `EachClient` (`client.go`):
skip the source itself and publishOnly peers, send to the rest. -/
def publishFanOutStep (cid : String) (packet : PublishPacket)
    (other : client) (acc : World) : World × Option String :=
  if cid = other.id ∨ other.publishOnly then (acc, none)
  else
    let r := send other (some (ControlPacket.publish packet)) acc
    (r.2.1, r.2.2)

/-- `client.ProcessPublish` (`client.go`): fan-out over the registry,
skipping the source itself and publishOnly peers, sending to the rest. -/
def ProcessPublish (c : client) (packet : PublishPacket) (w : World) : World :=
  EachClient w (publishFanOutStep c.id packet)

/-- `client.ProcessSubscribe` (`client.go`): no-op when Disconnected or
the broker pointer is nil; else builds a SUBACK echoing `MessageID`
with a zero return code per topic, sends it, logging a send error. -/
def ProcessSubscribe (c : client) (packet : SubscribePacket) (w : World) :
    client × World :=
  if c.status = Status.Disconnected then (c, w)
  else if ¬ c.hasBroker then (c, w)
  else
    let retcodes := packet.topics.map (fun _ => 0)
    let suback : SubackPacket := { messageID := packet.messageID, returnCodes := retcodes }
    let r := send c (some (ControlPacket.suback suback)) w
    match r.2.2 with
    | some e => (r.1, { r.2.1 with logs := r.2.1.logs ++ ["send suback error " ++ e] })
    | none => (r.1, r.2.1)

/-- `client.ProcessPing` (`client.go`): no-op when Disconnected; else
sends the shared PINGRESP, logging a send error. -/
def ProcessPing (c : client) (w : World) : client × World :=
  if c.status = Status.Disconnected then (c, w)
  else
    let r := send c (some PingrespPacket) w
    match r.2.2 with
    | some e => (r.1, { r.2.1 with logs := r.2.1.logs ++ ["send PingResponse error " ++ e] })
    | none => (r.1, r.2.1)

/-- The `Message` envelope: a source client and a decoded packet
(nilable interface value). -/
structure Message where
  client : client
  packet : Option ControlPacket
  deriving DecidableEq, Repr

/-- `ProcessMessage` (`client.go`): returns at once on a nil packet,
else dispatches on the packet type. -/
def ProcessMessage (msg : Message) (w : World) : World :=
  match msg.packet with
  | none => w
  | some ca =>
    match ca with
    | ControlPacket.connack _ => w
    | ControlPacket.connect _ => w
    | ControlPacket.publish p => ProcessPublish msg.client p w
    | ControlPacket.puback => w
    | ControlPacket.pubrec => w
    | ControlPacket.pubrel => w
    | ControlPacket.pubcomp => w
    | ControlPacket.subscribe p => (ProcessSubscribe msg.client p w).2
    | ControlPacket.suback _ => w
    | ControlPacket.unsubscribe => w
    | ControlPacket.unsuback => w
    | ControlPacket.pingreq => (ProcessPing msg.client w).2
    | ControlPacket.pingresp => w
    | ControlPacket.disconnect => (close msg.client w).2
    | ControlPacket.unknown => { w with logs := w.logs ++ ["Recv Unknown message"] }

/-- `newClient` (`client.go`): fresh Connected session for `conn` with
the given identifier; `publishOnly` is left false. -/
def newClient (cn : Conn) (id : String) : client :=
  { id := id, publishOnly := false, conn := some cn,
    status := Status.Connected, cancelled := false, hasBroker := true }

/-- `Broker.handleConnectPacket` (`config.go`): reads one packet from
the connection and fails unless it is a non-nil CONNECT. The read's
outcome is the argument. -/
def handleConnectPacket (readResult : Except String (Option ControlPacket)) :
    Except String ConnectPacket :=
  match readResult with
  | Except.error e => Except.error e
  | Except.ok none => Except.error "nil packet"
  | Except.ok (some (ControlPacket.connect p)) => Except.ok p
  | Except.ok (some _) => Except.error "not connect"

/-- `Broker.handleConnackPacket` (`config.go`): builds the CONNACK with
`SessionPresent = !CleanSession` and `ReturnCode = connect.Validate()`,
writes and rejects when not Accepted, mutates the return code to
NotAuthorised and writes when the identifier is already registered, and
then falls through to the success write of the same (possibly mutated)
packet. Returns the CONNACKs written to `conn` and the error result;
`validate` stands for the external `connect.Validate()`. -/
def handleConnackPacket (reg : List client) (validate : ConnectPacket → Nat)
    (cn : Conn) (connect : ConnectPacket) : List ConnackPacket × Option String :=
  let connack : ConnackPacket :=
    { sessionPresent := !connect.cleanSession, returnCode := validate connect }
  if connack.returnCode ≠ Accepted then
    match cn.writeErr with
    | some e => ([connack], some e)
    | none => ([connack], some "connect not accepted")
  else
    match LoadClient reg connect.clientIdentifier with
    | some _ =>
      let connack2 : ConnackPacket := { connack with returnCode := ErrRefusedNotAuthorised }
      match cn.writeErr with
      | some e => ([connack2], some e)
      | none => ([connack2, connack2], none)
    | none =>
      match cn.writeErr with
      | some e => ([connack], some e)
      | none => ([connack], none)

/-- `Broker.handleConnection` (`config.go`): runs the CONNECT read and
the CONNACK exchange; on success creates the client and stores it in
the registry (the subsequent read loop is concurrent and not part of
this step). Returns the updated registry and the CONNACKs written. -/
def handleConnection (reg : List client) (validate : ConnectPacket → Nat)
    (cn : Conn) (readResult : Except String (Option ControlPacket)) :
    List client × List ConnackPacket :=
  match handleConnectPacket readResult with
  | Except.error _ => (reg, [])
  | Except.ok connect =>
    let r := handleConnackPacket reg validate cn connect
    match r.2 with
    | some _ => (reg, r.1)
    | none => (AddClient reg (newClient cn connect.clientIdentifier), r.1)

/-- `ACCEPT_MIN_SLEEP` in milliseconds (`100 * time.Millisecond`). -/
def ACCEPT_MIN_SLEEP : Nat := 100

/-- `ACCEPT_MAX_SLEEP` in milliseconds (`10 * time.Second`). -/
def ACCEPT_MAX_SLEEP : Nat := 10000

/-- Outcome of one `l.Accept()` call in `StartClientListening`: a
temporary error, a non-temporary error, or a successful accept. -/
inductive AcceptEvent where
  | temp
  | perm
  | success
  deriving DecidableEq, Repr

/-- One iteration of the accept loop (`StartClientListening`): returns
the new `tmpDelay` and the sleeps (ms) performed. A temporary error
sleeps the current delay, doubles it and caps it at `ACCEPT_MAX_SLEEP`;
a non-temporary error only logs; a successful accept resets the delay
to `ACCEPT_MIN_SLEEP`. -/
def acceptStep (tmpDelay : Nat) : AcceptEvent → Nat × List Nat
  | AcceptEvent.temp =>
      let d := tmpDelay * 2
      (if d > ACCEPT_MAX_SLEEP then ACCEPT_MAX_SLEEP else d, [tmpDelay])
  | AcceptEvent.perm => (tmpDelay, [])
  | AcceptEvent.success => (ACCEPT_MIN_SLEEP, [])

/-- The accept loop run from delay `d` over a sequence of accept
outcomes, collecting the sleeps performed. The loop itself never
terminates; the event list is a finite prefix of its execution. -/
def acceptRunFrom (d : Nat) : List AcceptEvent → List Nat
  | [] => []
  | e :: es =>
      let r := acceptStep d e
      r.2 ++ acceptRunFrom r.1 es

/-- The accept loop from broker start: `tmpDelay := 10 * ACCEPT_MIN_SLEEP`. -/
def acceptRun (es : List AcceptEvent) : List Nat :=
  acceptRunFrom (10 * ACCEPT_MIN_SLEEP) es

/-- The `Config` struct (`config.go`). -/
structure Config where
  worker : Int
  host : String
  port : String
  debug : Bool
  deriving DecidableEq, Repr

/-- `Config.check` (`config.go`): normalizes `Worker == 0` to 1024 and
an empty `Host` to `"0.0.0.0"` when `Port` is nonempty; always returns
a nil error. -/
def Config.check (config : Config) : Config × Option String :=
  let c1 := if config.worker = 0 then { config with worker := 1024 } else config
  let c2 :=
    if c1.port ≠ "" then
      if c1.host = "" then { c1 with host := "0.0.0.0" } else c1
    else c1
  (c2, none)

/-- The state `ConfigureConfig` reaches after flag parsing succeeds:
the flag-populated config, the help flag, the config-file path, and
whether the bare `-D` flag was visited. -/
structure ParsedFlags where
  config : Config
  help : Bool
  configFile : String
  dFlagSet : Bool
  deriving DecidableEq, Repr

/-- `ConfigureConfig` (`config.go`) after the external steps are made
explicit: `parse` is the outcome of `fs.Parse(args)` and `loadConfig`
is `LoadConfig` (file read + JSON unmarshal). Returns `ok none` on the
help path and otherwise the checked config; the only error sources are
the parse and the config-file load. -/
def ConfigureConfig (parse : Except String ParsedFlags)
    (loadConfig : String → Except String Config) :
    Except String (Option Config) :=
  match parse with
  | Except.error e => Except.error e
  | Except.ok pf =>
    if pf.help then Except.ok none
    else
      let config := if pf.dFlagSet then { pf.config with debug := true } else pf.config
      let step : Except String Config :=
        if pf.configFile ≠ "" then loadConfig pf.configFile else Except.ok config
      match step with
      | Except.error e => Except.error e
      | Except.ok cfg =>
        match cfg.check with
        | (_, some e) => Except.error e
        | (cfg2, none) => Except.ok (some cfg2)

/-! Concrete fixtures used by closed theorems (counterexamples,
code-bug evaluations and witnesses). -/

/-- A registered, connected session with identifier `"c1"`. -/
def c1Session : client :=
  { id := "c1", publishOnly := false, conn := some { fd := 1 },
    status := Status.Connected, cancelled := false, hasBroker := true }

/-- A second CONNECT carrying the already-registered identifier `"c1"`. -/
def dupConnect : ConnectPacket := { clientIdentifier := "c1", cleanSession := true }

/-- A validation outcome that accepts every CONNECT. -/
def validateOk : ConnectPacket → Nat := fun _ => Accepted

/-- The log lines the fan-out produces for one eligible peer: none when
the peer's `Send` is a Disconnected no-op or the write succeeds, the
`EachClient` error log otherwise. -/
def fanOutErrorLog (p : client) : List String :=
  if p.status = Status.Disconnected then []
  else
    match p.conn with
    | none => ["process " ++ "connection lost"]
    | some cn =>
      match cn.writeErr with
      | some e => ["process " ++ e]
      | none => []

/-- A source session that is already Disconnected. -/
def discSource : client :=
  { id := "c0", publishOnly := false, conn := none,
    status := Status.Disconnected, cancelled := true, hasBroker := true }

/-- A connected peer registered in the fan-out world. -/
def peerC2 : client :=
  { id := "c2", publishOnly := false, conn := some { fd := 3 },
    status := Status.Connected, cancelled := false, hasBroker := true }

/-- A PUBLISH payload used by the concrete fan-out runs. -/
def pubHello : PublishPacket := { topicName := "t/1", payload := "hello" }

/-- A world whose registry holds only `peerC2`, with empty traces. -/
def fanoutWorld : World :=
  { clients := [peerC2], wire := [], sendCalls := [], closedConns := [], logs := [] }

/-- A Connected session whose `conn` has been nilled out. -/
def connLostClient : client :=
  { id := "c9", publishOnly := false, conn := none,
    status := Status.Connected, cancelled := false, hasBroker := true }

/-- A config exercising both normalizations of `Config.check`. -/
def zeroWorkerConfig : Config :=
  { worker := 0, host := "", port := "1883", debug := false }

/-- C9: `ProcessMessage` with a nil packet returns immediately: the
world (registry, wire, send calls, closed connections, logs) is
unchanged and no handler runs. -/
theorem processMessage_nil_packet_noop (c : client) (w : World) :
    ProcessMessage { client := c, packet := none } w = w := rfl

/-- C1: evaluation of the handshake at the failing input. With `"c1"`
already registered, a second CONNECT carrying `"c1"` (validation
Accepted, writes succeeding) makes `handleConnackPacket` write the
NotAuthorised CONNACK but return no error, so `handleConnection` goes
on to create a new session and store it, replacing the original
registry entry — contradicting the claim that no session is registered
for the new connection and the original remains. -/
theorem duplicate_connect_registers_new_session :
    handleConnection [c1Session] validateOk { fd := 2 }
        (Except.ok (some (ControlPacket.connect dupConnect))) =
      ([newClient { fd := 2 } "c1"],
       [{ sessionPresent := false, returnCode := ErrRefusedNotAuthorised },
        { sessionPresent := false, returnCode := ErrRefusedNotAuthorised }]) ∧
    newClient { fd := 2 } "c1" ≠ c1Session ∧
    LoadClient [c1Session] "c1" = some c1Session ∧
    LoadClient
        (handleConnection [c1Session] validateOk { fd := 2 }
          (Except.ok (some (ControlPacket.connect dupConnect)))).1 "c1" =
      some (newClient { fd := 2 } "c1") := by decide

/-- C2, counterexample: on the duplicate-identifier path the second
CONNACK does not carry the original validation code. Validation
returned Accepted, yet both written CONNACKs carry NotAuthorised,
because the single CONNACK value was mutated before the first write
and is written again on the fall-through. -/
theorem second_connack_repeats_notauthorized_cex :
    validateOk dupConnect = Accepted ∧
    (handleConnackPacket [c1Session] validateOk { fd := 2 } dupConnect).1 =
      [{ sessionPresent := false, returnCode := ErrRefusedNotAuthorised },
       { sessionPresent := false, returnCode := ErrRefusedNotAuthorised }] ∧
    ¬ (handleConnackPacket [c1Session] validateOk { fd := 2 } dupConnect).1 =
      [{ sessionPresent := false, returnCode := ErrRefusedNotAuthorised },
       { sessionPresent := false, returnCode := Accepted }] := by decide

/-- C2, amended: on the duplicate-identifier path (validation Accepted,
identifier already registered, writes succeeding) the handshake writes
the CONNACK twice — first with NotAuthorised, and the second time the
same mutated packet again, so the second CONNACK also carries
NotAuthorised rather than the original Accepted code. -/
theorem duplicate_connack_written_twice_notauthorized
    (reg : List client) (validate : ConnectPacket → Nat) (cn : Conn)
    (connect : ConnectPacket)
    (hv : validate connect = Accepted)
    (hdup : (LoadClient reg connect.clientIdentifier).isSome)
    (hw : cn.writeErr = none) :
    (handleConnackPacket reg validate cn connect).1 =
      [{ sessionPresent := !connect.cleanSession,
         returnCode := ErrRefusedNotAuthorised },
       { sessionPresent := !connect.cleanSession,
         returnCode := ErrRefusedNotAuthorised }] := by
  obtain ⟨c0, hc0⟩ := Option.isSome_iff_exists.mp hdup
  simp [handleConnackPacket, hv, hc0, hw]

/-- Witness for the amended C2 theorem at a concrete duplicate CONNECT. -/
theorem duplicate_connack_written_twice_notauthorized_witness :
    (handleConnackPacket [c1Session] validateOk { fd := 2 } dupConnect).1 =
      [{ sessionPresent := !dupConnect.cleanSession,
         returnCode := ErrRefusedNotAuthorised },
       { sessionPresent := !dupConnect.cleanSession,
         returnCode := ErrRefusedNotAuthorised }] :=
  duplicate_connack_written_twice_notauthorized [c1Session] validateOk
    { fd := 2 } dupConnect (by decide) (by decide) (by decide)

lemma close_world_traces (c : client) (w : World) :
    (close c w).2.sendCalls = w.sendCalls ∧
    (close c w).2.logs = w.logs ∧
    (close c w).2.wire = w.wire := by
  rcases c with ⟨cid, cpo, cconn, cst, ccc, chb⟩
  rcases cst <;> rcases cconn <;> cases chb <;> simp [close]

lemma eachClientApply_publish_trace (cid : String) (pkt : PublishPacket)
    (acc : World) (p : client) :
    (eachClientApply (publishFanOutStep cid pkt) acc p).sendCalls =
      acc.sendCalls ++ (if cid = p.id ∨ p.publishOnly = true then [] else [p.id]) ∧
    (eachClientApply (publishFanOutStep cid pkt) acc p).logs =
      acc.logs ++ (if cid = p.id ∨ p.publishOnly = true then [] else fanOutErrorLog p) := by
  by_cases h : cid = p.id ∨ p.publishOnly = true
  · simp [eachClientApply, publishFanOutStep, h]
  · rcases p with ⟨pid, ppo, pconn, pst, pcc, phb⟩
    rcases pst
    · rcases pconn with _ | ⟨fd, werr⟩
      · cases phb <;>
          simp [eachClientApply, publishFanOutStep, send, close, fanOutErrorLog, h]
      · rcases werr with _ | e <;>
          simp [eachClientApply, publishFanOutStep, send, fanOutErrorLog, h]
    · simp [eachClientApply, publishFanOutStep, send, fanOutErrorLog, h]

lemma fanout_foldl_trace (cid : String) (pkt : PublishPacket) :
    ∀ (cls : List client) (acc : World),
      ((cls.foldl (eachClientApply (publishFanOutStep cid pkt)) acc).sendCalls =
        acc.sendCalls ++
          (cls.filter (fun p => !(cid == p.id || p.publishOnly))).map client.id) ∧
      ((cls.foldl (eachClientApply (publishFanOutStep cid pkt)) acc).logs =
        acc.logs ++
          ((cls.filter (fun p => !(cid == p.id || p.publishOnly))).map
            fanOutErrorLog).flatten)
  | [], acc => by simp
  | p :: cls, acc => by
    have hstep := eachClientApply_publish_trace cid pkt acc p
    have ih := fanout_foldl_trace cid pkt cls
      (eachClientApply (publishFanOutStep cid pkt) acc p)
    by_cases h : cid = p.id ∨ p.publishOnly = true
    · rcases h with h | h
      · subst h
        simp [List.foldl_cons, ih.1, ih.2, hstep.1, hstep.2, List.filter_cons]
      · simp [List.foldl_cons, ih.1, ih.2, hstep.1, hstep.2, List.filter_cons, h]
    · push_neg at h
      simp [List.foldl_cons, ih.1, ih.2, hstep.1, hstep.2, List.filter_cons,
        h.1, h.2]

/-- C4: for a PUBLISH from `c`, the fan-out invokes `Send` exactly on
the registered peers whose id differs from `c.id` and whose
`publishOnly` is false — in registry order, regardless of any per-peer
send errors (no early stop) — and the per-peer errors are logged in
the same order. -/
theorem publish_fanout_targets_exact (c : client) (pp : PublishPacket) (w : World) :
    (ProcessPublish c pp w).sendCalls =
      w.sendCalls ++
        (w.clients.filter (fun p => !(c.id == p.id || p.publishOnly))).map client.id ∧
    (ProcessPublish c pp w).logs =
      w.logs ++
        ((w.clients.filter (fun p => !(c.id == p.id || p.publishOnly))).map
          fanOutErrorLog).flatten := by
  have := fanout_foldl_trace c.id pp w.clients w
  exact ⟨this.1, this.2⟩

/-- C3, counterexample: the publish fan-out handler is not a no-op for
a Disconnected source session — with a connected peer registered, the
PUBLISH is still sent to the peer (the source's status is never
checked in `ProcessPublish`). -/
theorem disconnected_publish_still_sends_cex :
    discSource.status = Status.Disconnected ∧
    (ProcessPublish discSource pubHello fanoutWorld).wire =
      [(3, ControlPacket.publish pubHello)] ∧
    (ProcessPublish discSource pubHello fanoutWorld).sendCalls = ["c2"] := by decide

/-- C3, amended: when the source session is Disconnected, the
subscribe, ping and disconnect handlers are no-ops (no send, no state
change), but the publish fan-out handler is not guarded by the
source's status: it runs exactly as it would for a Connected source. -/
theorem disconnected_handlers_noop_except_publish
    (c : client) (w : World) (sp : SubscribePacket) (pp : PublishPacket)
    (h : c.status = Status.Disconnected) :
    ProcessSubscribe c sp w = (c, w) ∧
    ProcessPing c w = (c, w) ∧
    close c w = (c, w) ∧
    ProcessPublish c pp w =
      ProcessPublish { c with status := Status.Connected } pp w := by
  refine ⟨?_, ?_, ?_, rfl⟩
  · simp [ProcessSubscribe, h]
  · simp [ProcessPing, h]
  · simp [close, h]

/-- Witness for the amended C3 theorem at a concrete Disconnected
session. -/
theorem disconnected_handlers_noop_except_publish_witness :
    ProcessSubscribe discSource { topics := ["a"], messageID := 42 } fanoutWorld =
      (discSource, fanoutWorld) ∧
    ProcessPing discSource fanoutWorld = (discSource, fanoutWorld) ∧
    close discSource fanoutWorld = (discSource, fanoutWorld) ∧
    ProcessPublish discSource pubHello fanoutWorld =
      ProcessPublish { discSource with status := Status.Connected } pubHello fanoutWorld :=
  disconnected_handlers_noop_except_publish discSource fanoutWorld
    { topics := ["a"], messageID := 42 } pubHello (by decide)

/-- C5: `Close` is idempotent — a second call yields exactly the state
of the first; when already Disconnected it returns immediately
changing nothing; otherwise it fires the cancellation, flips status to
Disconnected, closes `conn` and nils it, and removes the session from
the registry, which a repeat call does not remove again. -/
theorem close_idempotent_spec (c : client) (w : World) :
    close (close c w).1 (close c w).2 = close c w ∧
    (c.status = Status.Disconnected → close c w = (c, w)) ∧
    (c.status = Status.Connected → c.hasBroker = true →
      (close c w).1.status = Status.Disconnected ∧
      (close c w).1.cancelled = true ∧
      (close c w).1.conn = none ∧
      (∀ cn, c.conn = some cn →
        (close c w).2.closedConns = w.closedConns ++ [cn.fd]) ∧
      (close c w).2.clients = DeleteClient w.clients c ∧
      (close (close c w).1 (close c w).2).2.clients = DeleteClient w.clients c) := by
  rcases c with ⟨cid, cpo, cconn, cst, ccc, chb⟩
  rcases cst <;> rcases cconn with _ | cn <;> cases chb <;>
    simp [close, DeleteClient]

/-- Witness for the C5 theorem at a concrete Connected session. -/
theorem close_idempotent_spec_witness :
    close (close peerC2 fanoutWorld).1 (close peerC2 fanoutWorld).2 =
      close peerC2 fanoutWorld ∧
    (close peerC2 fanoutWorld).1.status = Status.Disconnected ∧
    (close peerC2 fanoutWorld).2.clients = DeleteClient fanoutWorld.clients peerC2 :=
  ⟨(close_idempotent_spec peerC2 fanoutWorld).1,
   ((close_idempotent_spec peerC2 fanoutWorld).2.2 (by decide) (by decide)).1,
   ((close_idempotent_spec peerC2 fanoutWorld).2.2 (by decide) (by decide)).2.2.2.2.1⟩

/-- C6: `Send` returns a nil error and writes nothing when the session
is Disconnected or the packet is nil; with a live status and a nil
`conn` it invokes `Close` and returns the connection-lost error;
otherwise it writes the packet to the connection and returns the
write's result. -/
theorem send_spec (c : client) (packet : Option ControlPacket) (w : World) :
    (c.status = Status.Disconnected →
      (send c packet w).2.2 = none ∧ (send c packet w).1 = c ∧
      (send c packet w).2.1.wire = w.wire ∧
      (send c packet w).2.1.clients = w.clients) ∧
    (packet = none →
      (send c packet w).2.2 = none ∧ (send c packet w).1 = c ∧
      (send c packet w).2.1.wire = w.wire ∧
      (send c packet w).2.1.clients = w.clients) ∧
    (c.status = Status.Connected → packet ≠ none → c.conn = none →
      send c packet w =
        ((close c { w with sendCalls := w.sendCalls ++ [c.id] }).1,
         (close c { w with sendCalls := w.sendCalls ++ [c.id] }).2,
         some "connection lost")) ∧
    (∀ pkt cn, c.status = Status.Connected → packet = some pkt → c.conn = some cn →
      (send c packet w).1 = c ∧
      (send c packet w).2.1.wire = w.wire ++ [(cn.fd, pkt)] ∧
      (send c packet w).2.2 = cn.writeErr) := by
  rcases c with ⟨cid, cpo, cconn, cst, ccc, chb⟩
  rcases cst <;> rcases packet with _ | pkt <;> rcases cconn with _ | cn <;>
    simp [send]

/-- Witness for the C6 theorem, exercising all four branches at
concrete inputs. -/
theorem send_spec_witness :
    (send discSource (some PingrespPacket) fanoutWorld).2.2 = none ∧
    (send peerC2 none fanoutWorld).2.2 = none ∧
    send connLostClient (some PingrespPacket) fanoutWorld =
      ((close connLostClient
          { fanoutWorld with sendCalls := fanoutWorld.sendCalls ++ ["c9"] }).1,
       (close connLostClient
          { fanoutWorld with sendCalls := fanoutWorld.sendCalls ++ ["c9"] }).2,
       some "connection lost") ∧
    (send peerC2 (some PingrespPacket) fanoutWorld).2.1.wire =
      fanoutWorld.wire ++ [(3, PingrespPacket)] :=
  ⟨((send_spec discSource (some PingrespPacket) fanoutWorld).1 (by decide)).1,
   ((send_spec peerC2 none fanoutWorld).2.1 rfl).1,
   (send_spec connLostClient (some PingrespPacket) fanoutWorld).2.2.1
     (by decide) (by simp) rfl,
   ((send_spec peerC2 (some PingrespPacket) fanoutWorld).2.2.2
     PingrespPacket { fd := 3 } (by decide) rfl rfl).2.1⟩

/-- C7: every CONNACK the handshake writes carries
`SessionPresent = !CleanSession`; a written CONNACK whose return code
is Accepted carries exactly the CONNECT validation outcome; and except
on the duplicate-identifier path the first (and only) CONNACK written
is the built one: `SessionPresent = !CleanSession`,
`ReturnCode = connect.Validate()`. -/
theorem connack_sessionPresent_law
    (reg : List client) (validate : ConnectPacket → Nat) (cn : Conn)
    (connect : ConnectPacket) :
    (∀ ca ∈ (handleConnackPacket reg validate cn connect).1,
       ca.sessionPresent = !connect.cleanSession) ∧
    (∀ ca ∈ (handleConnackPacket reg validate cn connect).1,
       ca.returnCode = Accepted → ca.returnCode = validate connect) ∧
    ((LoadClient reg connect.clientIdentifier = none ∨ validate connect ≠ Accepted) →
       (handleConnackPacket reg validate cn connect).1.head? =
         some { sessionPresent := !connect.cleanSession,
                returnCode := validate connect }) := by
  by_cases hv : validate connect = Accepted
  · rcases hload : LoadClient reg connect.clientIdentifier with _ | c0
    · rcases hw : cn.writeErr with _ | e <;>
        simp [handleConnackPacket, hv, hload, hw]
    · rcases hw : cn.writeErr with _ | e <;>
        simp [handleConnackPacket, hv, hload, hw, Accepted, ErrRefusedNotAuthorised]
  · rcases hw : cn.writeErr with _ | e <;>
      simp [handleConnackPacket, hv, hw]

/-- Witness for the C7 theorem: the session-present law on a written
CONNACK of the duplicate path, the Accepted-code law and the
first-write law on a fresh-identifier handshake. -/
theorem connack_sessionPresent_law_witness :
    ({ sessionPresent := false, returnCode := ErrRefusedNotAuthorised } :
        ConnackPacket).sessionPresent = !dupConnect.cleanSession ∧
    ({ sessionPresent := false, returnCode := Accepted } :
        ConnackPacket).returnCode = validateOk dupConnect ∧
    (handleConnackPacket [] validateOk { fd := 2 } dupConnect).1.head? =
      some { sessionPresent := !dupConnect.cleanSession,
             returnCode := validateOk dupConnect } :=
  ⟨(connack_sessionPresent_law [c1Session] validateOk { fd := 2 } dupConnect).1
     { sessionPresent := false, returnCode := ErrRefusedNotAuthorised } (by decide),
   (connack_sessionPresent_law [] validateOk { fd := 2 } dupConnect).2.1
     { sessionPresent := false, returnCode := Accepted } (by decide) (by decide),
   (connack_sessionPresent_law [] validateOk { fd := 2 } dupConnect).2.2
     (Or.inl (by decide))⟩

lemma backoff_min_mul_pow (d k : Nat) :
    min (min (d * 2) ACCEPT_MAX_SLEEP * 2 ^ k) ACCEPT_MAX_SLEEP =
      min (d * 2 * 2 ^ k) ACCEPT_MAX_SLEEP := by
  rcases le_or_lt (d * 2) ACCEPT_MAX_SLEEP with h | h
  · rw [min_eq_left h]
  · have hpow : (1 : Nat) ≤ 2 ^ k := Nat.one_le_two_pow
    have h1 : ACCEPT_MAX_SLEEP ≤ ACCEPT_MAX_SLEEP * 2 ^ k :=
      le_mul_of_one_le_right (Nat.zero_le _) hpow
    have h2 : ACCEPT_MAX_SLEEP ≤ d * 2 * 2 ^ k :=
      le_trans h.le (le_mul_of_one_le_right (Nat.zero_le _) hpow)
    rw [min_eq_right h.le, min_eq_right h1, min_eq_right h2]

lemma acceptRunFrom_temps : ∀ (n d : Nat), d ≤ ACCEPT_MAX_SLEEP →
    acceptRunFrom d (List.replicate n AcceptEvent.temp) =
      (List.range n).map (fun k => min (d * 2 ^ k) ACCEPT_MAX_SLEEP)
  | 0, d, _ => by simp [acceptRunFrom]
  | n + 1, d, hd => by
    have hstep : (if d * 2 > ACCEPT_MAX_SLEEP then ACCEPT_MAX_SLEEP else d * 2) =
        min (d * 2) ACCEPT_MAX_SLEEP := by
      rw [Nat.min_def]
      split <;> split <;> omega
    have ih := acceptRunFrom_temps n (min (d * 2) ACCEPT_MAX_SLEEP)
      (min_le_right _ _)
    have hfun : ∀ k, min (min (d * 2) ACCEPT_MAX_SLEEP * 2 ^ k) ACCEPT_MAX_SLEEP =
        min (d * 2 ^ (k + 1)) ACCEPT_MAX_SLEEP := by
      intro k
      rw [backoff_min_mul_pow]
      congr 1
      ring
    rw [List.replicate_succ]
    simp only [acceptRunFrom, acceptStep]
    rw [hstep, ih, List.range_succ_eq_map, List.map_cons, List.map_map,
      List.singleton_append]
    congr 1
    · simp [min_eq_left hd]
    · refine List.map_congr_left ?_
      intro k _
      simpa using hfun k

/-- C8, counterexample: the first temporary accept failure after a
successful accept is the 0th failure of its consecutive run, yet the
loop sleeps `ACCEPT_MIN_SLEEP` (100 ms) — the delay was reset to
`ACCEPT_MIN_SLEEP`, not to `10 · ACCEPT_MIN_SLEEP` — so the claimed
`min(10·base·2^k, cap)` formula fails for that run. -/
theorem accept_backoff_reset_cex :
    acceptRun [AcceptEvent.success, AcceptEvent.temp] = [ACCEPT_MIN_SLEEP] ∧
    ACCEPT_MIN_SLEEP ≠
      min (10 * ACCEPT_MIN_SLEEP * 2 ^ 0) ACCEPT_MAX_SLEEP := by decide

/-- C8, amended: from broker start the k-th consecutive temporary
accept failure sleeps `min(10·base·2^k, cap)` with base 100 ms and cap
10 s; a successful accept resets the delay to `ACCEPT_MIN_SLEEP`, so a
run of consecutive temporary failures after a success sleeps
`min(base·2^k, cap)`; non-temporary errors sleep nothing, leave the
delay unchanged and do not terminate the loop. -/
theorem accept_backoff_spec :
    (∀ n, acceptRun (List.replicate n AcceptEvent.temp) =
       (List.range n).map
         (fun k => min (10 * ACCEPT_MIN_SLEEP * 2 ^ k) ACCEPT_MAX_SLEEP)) ∧
    (∀ d es, acceptRunFrom d (AcceptEvent.success :: es) =
       acceptRunFrom ACCEPT_MIN_SLEEP es) ∧
    (∀ d n, acceptRunFrom d
        (AcceptEvent.success :: List.replicate n AcceptEvent.temp) =
       (List.range n).map (fun k => min (ACCEPT_MIN_SLEEP * 2 ^ k) ACCEPT_MAX_SLEEP)) ∧
    (∀ d es, acceptRunFrom d (AcceptEvent.perm :: es) = acceptRunFrom d es) := by
  have hreset : ∀ d es, acceptRunFrom d (AcceptEvent.success :: es) =
      acceptRunFrom ACCEPT_MIN_SLEEP es := by
    intro d es
    simp [acceptRunFrom, acceptStep]
  refine ⟨?_, hreset, ?_, ?_⟩
  · intro n
    exact acceptRunFrom_temps n (10 * ACCEPT_MIN_SLEEP)
      (by norm_num [ACCEPT_MIN_SLEEP, ACCEPT_MAX_SLEEP])
  · intro d n
    rw [hreset]
    exact acceptRunFrom_temps n ACCEPT_MIN_SLEEP
      (by norm_num [ACCEPT_MIN_SLEEP, ACCEPT_MAX_SLEEP])
  · intro d es
    simp [acceptRunFrom, acceptStep]

/-- C10: `Config.check` always returns a nil error, normalizing only
`Worker = 0` to 1024 and an empty `Host` (with a nonempty `Port`) to
`"0.0.0.0"`; consequently `ConfigureConfig` can fail only when flag
parsing fails or when a given config file fails to load. -/
theorem configure_config_error_sources :
    (∀ c : Config, (Config.check c).2 = none ∧
       (Config.check c).1.worker = (if c.worker = 0 then 1024 else c.worker) ∧
       (Config.check c).1.host =
         (if c.port ≠ "" ∧ c.host = "" then "0.0.0.0" else c.host) ∧
       (Config.check c).1.port = c.port ∧
       (Config.check c).1.debug = c.debug) ∧
    (∀ (parse : Except String ParsedFlags)
       (loadConfig : String → Except String Config) (err : String),
       ConfigureConfig parse loadConfig = Except.error err →
       parse = Except.error err ∨
       ∃ pf, parse = Except.ok pf ∧ pf.configFile ≠ "" ∧
         loadConfig pf.configFile = Except.error err) := by
  constructor
  · intro c
    rcases c with ⟨cw, ch, cp, cd⟩
    by_cases hw : cw = 0 <;> by_cases hp : cp = "" <;> by_cases hh : ch = "" <;>
      simp [Config.check, hw, hp, hh]
  · intro parse loadConfig err h
    rcases parse with e | pf
    · left
      have he : e = err := by simpa [ConfigureConfig] using h
      rw [he]
    · by_cases hhelp : pf.help
      · simp [ConfigureConfig, hhelp] at h
      · by_cases hf : pf.configFile = ""
        · simp [ConfigureConfig, hhelp, hf, Config.check] at h
        · rcases hl : loadConfig pf.configFile with e | cfg
          · refine Or.inr ⟨pf, rfl, hf, ?_⟩
            simp [ConfigureConfig, hhelp, hf, hl] at h
            rw [hl, h]
          · simp [ConfigureConfig, hhelp, hf, hl, Config.check] at h

/-- Witness for the C10 theorem: `check` succeeds on a concrete config,
and a failed flag parse is reported as the parse error. -/
theorem configure_config_error_sources_witness :
    (Config.check zeroWorkerConfig).2 = none ∧
    ((Except.error "bad flag" : Except String ParsedFlags) =
        Except.error "bad flag" ∨
     ∃ pf, (Except.error "bad flag" : Except String ParsedFlags) = Except.ok pf ∧
       pf.configFile ≠ "" ∧
       (fun _ => Except.ok zeroWorkerConfig : String → Except String Config)
           pf.configFile =
         Except.error "bad flag") :=
  ⟨(configure_config_error_sources.1 zeroWorkerConfig).1,
   configure_config_error_sources.2 (Except.error "bad flag")
     (fun _ => Except.ok zeroWorkerConfig) "bad flag" rfl⟩

end HMQ
